import Mathlib

/-!
Verification development for the kiyofm trading bot (`kiyofm.py`).

The bot's core cycle (`check_trades`) is embedded shallowly: effectful
Python code is modelled as pure functions over explicit inputs.  Market
data rows carry the `Close` price together with the indicator columns the
code appends to the dataframe (`SMA`, `RSI`); a column value that would be
NaN in pandas is modelled as `none`, and every Python comparison against
NaN evaluates to false, exactly as in CPython.  News fetching is an
`Except` value (network error or a list of per-headline polarity scores).
Python exceptions inside the cycle (ZeroDivisionError, KeyError, a raise
from the Telegram send) abort the remainder of the cycle; the effects a
cycle performed before the raise are kept, the rest never happen.
-/

/-- The instrument the bot trades (`TICKER = "RELIANCE.NS"`). -/
def TICKER : String := "RELIANCE.NS"

/-- Directional signal derived per cycle by `get_signal_and_price`
(`"BUY"` / `"SELL"`; the no-signal case is `Option.none` around this). -/
inductive Signal where
  | buy
  | sell
deriving DecidableEq, Repr

/-- Sentiment category returned by `get_news_sentiment`
(`"Positive"` / `"Neutral"` / `"Negative"`). -/
inductive Sentiment where
  | positive
  | neutral
  | negative
deriving DecidableEq, Repr

/-- The persisted position state, the JSON object in `trade_state.json`.
`open_position` is `null` or `"LONG"`; the `entry_time` key may be absent
(the reset state written on exit has no `entry_time` key). -/
structure TradeState where
  open_position : Option String
  entry_price : ℚ
  entry_time : Option String
deriving DecidableEq, Repr

/-- The default state `{"open_position": None, "entry_price": 0}` that
`get_trade_state` returns when the state file is missing. -/
def defaultTradeState : TradeState := ⟨none, 0, none⟩

/-- Content of the state file as seen by `get_trade_state`: missing,
malformed JSON, or a well-formed `TradeState` object. -/
inductive StateFile where
  | absent
  | corrupt
  | wellFormed (s : TradeState)
deriving DecidableEq, Repr

/-- `get_trade_state` (kiyofm.py lines 49-55): `json.load` of the state
file; only `FileNotFoundError` is caught (default state), so a malformed
file raises `json.JSONDecodeError`, modelled as `Except.error`. -/
def get_trade_state (f : StateFile) : Except Unit TradeState :=
  match f with
  | .absent => .ok defaultTradeState
  | .corrupt => .error ()
  | .wellFormed s => .ok s

/-- One row appended to `completed_trades.csv` by `log_completed_trade`.
Prices and P&L are kept as the numeric values the formatted cells denote. -/
structure TradeRecord where
  entry_time : String
  exit_time : String
  ticker : String
  trade_type : String
  entry_price : ℚ
  exit_price : ℚ
  profit_loss : ℚ
  profit_loss_percent : ℚ
deriving DecidableEq, Repr

/-- `log_completed_trade` (kiyofm.py lines 62-79): computes
`profit_loss = exit_price - entry_price` and
`profit_loss_percent = profit_loss / entry_price * 100`, appends a row to
the CSV and returns the pair.  The division raises `ZeroDivisionError`
when `entry_price = 0` (modelled as `none`); the raise happens before the
CSV append, so nothing is logged in that case. -/
def log_completed_trade (entry_time exit_time trade_type : String)
    (entry_price exit_price : ℚ) : Option (TradeRecord × ℚ × ℚ) :=
  if entry_price = 0 then none
  else
    let profit_loss := exit_price - entry_price
    let profit_loss_percent := profit_loss / entry_price * 100
    some (⟨entry_time, exit_time, TICKER, trade_type, entry_price,
           exit_price, profit_loss, profit_loss_percent⟩,
          profit_loss, profit_loss_percent)

/-- One dataframe row after the indicator columns were appended:
`Close`, `SMA` (5-period average) and `RSI` (14-period oscillator).
`none` models a NaN indicator cell (insufficient warm-up history). -/
structure Row where
  close : ℚ
  sma : Option ℚ
  rsi : Option ℚ
deriving DecidableEq, Repr

/-- Python comparison `a < b` where `b` may be NaN: NaN makes it false. -/
def qLtOpt (a : ℚ) (b : Option ℚ) : Bool :=
  match b with
  | some v => decide (a < v)
  | none => false

/-- Python comparison `a > b` where `b` may be NaN: NaN makes it false. -/
def qGtOpt (a : ℚ) (b : Option ℚ) : Bool :=
  match b with
  | some v => decide (a > v)
  | none => false

/-- Python comparison `a < b` where `a` may be NaN: NaN makes it false. -/
def optLtQ (a : Option ℚ) (b : ℚ) : Bool :=
  match a with
  | some v => decide (v < b)
  | none => false

/-- Python comparison `a > b` where `a` may be NaN: NaN makes it false. -/
def optGtQ (a : Option ℚ) (b : ℚ) : Bool :=
  match a with
  | some v => decide (v > b)
  | none => false

/-- `get_signal_and_price` (kiyofm.py lines 83-99): empty data or fewer
than 2 rows give `(None, None)`; otherwise the crossover rule on the last
two rows (`iloc[-1]`, `iloc[-2]`) decides BUY / SELL / no signal, and the
last close is returned as the price either way. -/
def get_signal_and_price (data : List Row) : Option Signal × Option ℚ :=
  match data.reverse with
  | last_row :: previous_row :: _ =>
    let signal : Option Signal :=
      if qLtOpt previous_row.close previous_row.sma
          && qGtOpt last_row.close last_row.sma
          && optLtQ last_row.rsi 70 then some .buy
      else if qGtOpt previous_row.close previous_row.sma
          && qLtOpt last_row.close last_row.sma
          && optGtQ last_row.rsi 30 then some .sell
      else none
    (signal, some last_row.close)
  | _ => (none, none)

/-- `get_news_sentiment` (kiyofm.py lines 101-115): every exception on
the news fetch is swallowed into `"Neutral"`; an empty article list gives
`"Neutral"`; otherwise the polarity sum of the first five articles is
thresholded at `±0.3`.  The fetch outcome is the argument: an error, or
the list of per-headline polarity scores of the response. -/
def get_news_sentiment (fetch : Except Unit (List ℚ)) : Sentiment :=
  match fetch with
  | .error _ => .neutral
  | .ok articles =>
    if articles = [] then .neutral
    else
      let sentiment_polarity := (articles.take 5).sum
      if sentiment_polarity > 3/10 then .positive
      else if sentiment_polarity < -(3/10) then .negative
      else .neutral

/-- An outbound Telegram message of `check_trades`, abstracted to the
data it carries: the ENTRY message `{price, sentiment}` or the EXIT
message `{price, profit_loss, profit_loss_percent, sentiment}`. -/
inductive TradeEvent where
  | entryEv (price : ℚ) (sentiment : Sentiment)
  | exitEv (price : ℚ) (profit_loss profit_loss_percent : ℚ) (sentiment : Sentiment)
deriving DecidableEq, Repr

/-- Observable outcome of one `check_trades` cycle: whether the state
file was read, the `set_trade_state` calls in order, the CSV rows
appended, the messages successfully sent, and whether an exception
escaped the cycle. -/
structure CycleResult where
  state_read : Bool
  writes : List TradeState
  appends : List TradeRecord
  events : List TradeEvent
  raised : Bool
deriving DecidableEq, Repr

/-- The body of `check_trades` after the signal was found (kiyofm.py
lines 135-164), as a function of the derived signal, price and sentiment.
`send_ok` tells whether `context.bot.send_message` succeeds this cycle;
a raise skips every later statement of the branch.  On the exit branch
the code sends the message *before* `set_trade_state` resets the state,
so a failed send leaves the LONG state in the file while the trade is
already in the CSV. -/
def check_trades_core (sig : Signal) (price : ℚ) (sentiment : Sentiment)
    (now : String) (state : TradeState) (send_ok : Bool) : CycleResult :=
  if sig = .buy ∧ state.open_position = none ∧ sentiment ≠ .negative then
    let new_state : TradeState := ⟨some "LONG", price, some now⟩
    { state_read := true, writes := [new_state], appends := [],
      events := if send_ok then [.entryEv price sentiment] else [],
      raised := !send_ok }
  else if sig = .sell ∧ state.open_position = some "LONG" ∧ sentiment ≠ .positive then
    match state.entry_time with
    | none =>
      { state_read := true, writes := [], appends := [], events := [], raised := true }
    | some et =>
      match log_completed_trade et now "LONG" state.entry_price price with
      | none =>
        { state_read := true, writes := [], appends := [], events := [], raised := true }
      | some (rec, profit, percent) =>
        if send_ok then
          { state_read := true, writes := [defaultTradeState], appends := [rec],
            events := [.exitEv price profit percent sentiment], raised := false }
        else
          { state_read := true, writes := [], appends := [rec], events := [],
            raised := true }
  else
    { state_read := true, writes := [], appends := [], events := [], raised := false }

/-- `check_trades` for one admitted cycle (kiyofm.py lines 129-164):
fetch the signal; with no signal the cycle returns before the state file
is read or the news is fetched; otherwise run the entry/exit logic. -/
def check_trades (rows : List Row) (news : Except Unit (List ℚ))
    (now : String) (state : TradeState) (send_ok : Bool) : CycleResult :=
  match get_signal_and_price rows with
  | (none, _) =>
    { state_read := false, writes := [], appends := [], events := [], raised := false }
  | (some sig, price) =>
    check_trades_core sig (price.getD 0) (get_news_sentiment news) now state send_ok

/-- One admitted cycle abstracted to the inputs the state machine sees:
the derived signal (or none), the sentiment category, the current price
and time, and whether the Telegram send succeeds. -/
structure CycleInput where
  signal : Option Signal
  sentiment : Sentiment
  price : ℚ
  time : String
  send_ok : Bool
deriving DecidableEq, Repr

/-- The persisted state after one cycle: the last `set_trade_state` call
of the cycle, or the previous file content if the cycle never wrote. -/
def run_cycle (s : TradeState) (i : CycleInput) : TradeState :=
  match i.signal with
  | none => s
  | some sig =>
    ((check_trades_core sig i.price i.sentiment i.time s i.send_ok).writes.getLast?).getD s

/-- The persisted state after a sequence of admitted cycles. -/
def run_cycles (inputs : List CycleInput) (s : TradeState) : TradeState :=
  inputs.foldl run_cycle s

/-- The PositionState invariant of the spec's data model: entry_price and
entry_time are set (non-zero / present) exactly when the position is LONG. -/
def stateInv (s : TradeState) : Prop :=
  (s.entry_price ≠ 0 ↔ s.open_position = some "LONG")
  ∧ (s.entry_time ≠ none ↔ s.open_position = some "LONG")

instance (s : TradeState) : Decidable (stateInv s) := by
  unfold stateInv
  infer_instance

/-- Summary statistics computed by the `/report` handler. -/
structure Summary where
  total : ℕ
  wins : ℕ
  losses : ℕ
  win_rate : ℚ
  total_pnl : ℚ
deriving DecidableEq, Repr

/-- Reply of the `/report` handler: missing CSV (FileNotFoundError), an
empty CSV (the "no completed trades" reply), or the computed summary. -/
inductive ReportReply where
  | no_file
  | no_trades
  | summary (s : Summary)
deriving DecidableEq, Repr

/-- The `/report` handler (kiyofm.py lines 177-210), over the ledger as
the list of numeric `Profit/Loss` values of the CSV rows (`none` models a
missing file).  A missing file is answered with the no-file reply, an
empty ledger with the no-trades reply; otherwise wins are rows with
P/L > 0, losses rows with P/L ≤ 0, the win rate is `wins/total * 100`
and the total P/L is the sum. -/
def report (ledger : Option (List ℚ)) : ReportReply :=
  match ledger with
  | none => .no_file
  | some [] => .no_trades
  | some pls =>
    let total_trades := pls.length
    let wins := (pls.filter fun x => decide (x > 0)).length
    let losses := (pls.filter fun x => decide (x ≤ 0)).length
    let win_rate : ℚ := if total_trades > 0 then ((wins : ℚ) / total_trades) * 100 else 0
    .summary ⟨total_trades, wins, losses, win_rate, pls.sum⟩

/-! ## Theorems -/

@[simp] theorem buy_ne_sell : ¬ (Signal.buy = Signal.sell) := by decide

@[simp] theorem sell_ne_buy : ¬ (Signal.sell = Signal.buy) := by decide

@[simp] theorem positive_ne_neutral : ¬ (Sentiment.positive = Sentiment.neutral) := by decide

@[simp] theorem positive_ne_negative : ¬ (Sentiment.positive = Sentiment.negative) := by decide

@[simp] theorem neutral_ne_positive : ¬ (Sentiment.neutral = Sentiment.positive) := by decide

@[simp] theorem neutral_ne_negative : ¬ (Sentiment.neutral = Sentiment.negative) := by decide

@[simp] theorem negative_ne_positive : ¬ (Sentiment.negative = Sentiment.positive) := by decide

@[simp] theorem negative_ne_neutral : ¬ (Sentiment.negative = Sentiment.neutral) := by decide

/-- C8: reading the persisted position state returns the default FLAT
state (open_position null, entry_price 0, no entry_time) when the state
file is missing, whereas a malformed state file raises: the error
propagates instead of the state being silently reset to the default. -/
theorem get_trade_state_missing_vs_corrupt :
    get_trade_state .absent = .ok ⟨none, 0, none⟩
    ∧ get_trade_state .corrupt = .error () :=
  ⟨rfl, rfl⟩

/-- C10: `log_completed_trade` divides by `entry_price` with no guard, so
it raises ZeroDivisionError exactly when `entry_price = 0`; otherwise it
is total and returns `(exit_price - entry_price,
(exit_price - entry_price) / entry_price * 100)` together with the CSV
row; and the error branch is unreachable from any state satisfying the
LONG-implies-nonzero-entry-price invariant. -/
theorem log_completed_trade_div_spec (et xt tt : String) (ep xp : ℚ) :
    (log_completed_trade et xt tt ep xp = none ↔ ep = 0)
    ∧ (ep ≠ 0 → log_completed_trade et xt tt ep xp =
        some (⟨et, xt, TICKER, tt, ep, xp, xp - ep, (xp - ep) / ep * 100⟩,
              xp - ep, (xp - ep) / ep * 100))
    ∧ (∀ s : TradeState, stateInv s → s.open_position = some "LONG" →
        (log_completed_trade et xt tt s.entry_price xp).isSome = true) := by
  refine ⟨?_, ?_, ?_⟩
  · unfold log_completed_trade
    split_ifs with h <;> simp [h]
  · intro h
    simp [log_completed_trade, h]
  · intro s hs hl
    have hep : s.entry_price ≠ 0 := hs.1.mpr hl
    simp [log_completed_trade, hep]

/-- Witness for C10 at the spec's round-trip example: entry 2500,
exit 2550 gives P&L 50 and 2 percent. -/
theorem log_completed_trade_div_spec_witness :
    log_completed_trade "T0" "T1" "LONG" 2500 2550 =
      some (⟨"T0", "T1", "RELIANCE.NS", "LONG", 2500, 2550, 50, 2⟩, 50, 2) := by
  have h := (log_completed_trade_div_spec "T0" "T1" "LONG" 2500 2550).2.1 (by norm_num)
  rw [h]
  norm_num [TICKER]

/-- C5: on a successful news fetch the sentiment is POSITIVE exactly when
the polarity sum over the first five headlines exceeds 3/10, NEGATIVE
exactly when it is below -3/10 and NEUTRAL otherwise; a failed fetch is
answered with NEUTRAL (the function is total, so it never raises). -/
theorem get_news_sentiment_spec (fetch : Except Unit (List ℚ)) :
    (∀ arts, fetch = .ok arts →
      ((get_news_sentiment fetch = .positive ↔ (arts.take 5).sum > 3/10)
       ∧ (get_news_sentiment fetch = .negative ↔ (arts.take 5).sum < -(3/10))
       ∧ (get_news_sentiment fetch = .neutral ↔
            -(3/10) ≤ (arts.take 5).sum ∧ (arts.take 5).sum ≤ 3/10)))
    ∧ (∀ e, fetch = .error e → get_news_sentiment fetch = .neutral) := by
  constructor
  · rintro arts rfl
    rcases arts with _ | ⟨a, rest⟩
    · refine ⟨?_, ?_, ?_⟩ <;> norm_num [get_news_sentiment]
    · simp only [get_news_sentiment, if_neg (List.cons_ne_nil a rest)]
      split_ifs with h1 h2
      · exact ⟨iff_of_true rfl h1, iff_of_false (by decide) (by linarith),
          iff_of_false (by decide) (by rintro ⟨-, hc⟩; linarith)⟩
      · exact ⟨iff_of_false (by decide) h1, iff_of_true rfl h2,
          iff_of_false (by decide) (by rintro ⟨hc, -⟩; linarith)⟩
      · exact ⟨iff_of_false (by decide) h1, iff_of_false (by decide) h2,
          iff_of_true rfl ⟨not_lt.mp h2, not_lt.mp h1⟩⟩
  · rintro e rfl
    rfl

/-- Witness for C5: a single strongly positive headline (polarity 1/2)
classifies as POSITIVE. -/
theorem get_news_sentiment_spec_witness :
    get_news_sentiment (.ok [(1:ℚ)/2]) = .positive :=
  (((get_news_sentiment_spec (.ok [(1:ℚ)/2])).1 [(1:ℚ)/2] rfl).1).mpr (by norm_num)

/-- C4: with at least two rows whose indicator cells are computable for
the last two bars, the signal is BUY exactly when the previous close is
below the previous trend average, the current close is above the current
trend average and the current oscillator is below 70; SELL exactly under
the mirrored conditions with the oscillator above 30; and no signal in
every other case. -/
theorem get_signal_and_price_crossover_spec
    (data : List Row) (last_row previous_row : Row) (rest : List Row)
    (hrev : data.reverse = last_row :: previous_row :: rest)
    (ps cs r : ℚ) (hps : previous_row.sma = some ps) (hcs : last_row.sma = some cs)
    (hr : last_row.rsi = some r) :
    ((get_signal_and_price data).1 = some .buy ↔
       (previous_row.close < ps ∧ last_row.close > cs ∧ r < 70))
    ∧ ((get_signal_and_price data).1 = some .sell ↔
       (previous_row.close > ps ∧ last_row.close < cs ∧ r > 30))
    ∧ ((get_signal_and_price data).1 = none ↔
       (¬(previous_row.close < ps ∧ last_row.close > cs ∧ r < 70)
        ∧ ¬(previous_row.close > ps ∧ last_row.close < cs ∧ r > 30))) := by
  have hexp : get_signal_and_price data =
      (if previous_row.close < ps ∧ last_row.close > cs ∧ r < 70 then some .buy
       else if previous_row.close > ps ∧ last_row.close < cs ∧ r > 30 then some .sell
       else none, some last_row.close) := by
    simp only [get_signal_and_price, hrev, qLtOpt, qGtOpt, optLtQ, optGtQ,
      hps, hcs, hr, Bool.and_eq_true, decide_eq_true_eq, gt_iff_lt, and_assoc]
  rw [hexp]
  by_cases hb : previous_row.close < ps ∧ last_row.close > cs ∧ r < 70
  · have hns : ¬(previous_row.close > ps ∧ last_row.close < cs ∧ r > 30) := by
      rintro ⟨hgt, -, -⟩
      exact absurd hb.1 (not_lt.mpr (le_of_lt hgt))
    simp [hb, hns]
  · by_cases hsell : previous_row.close > ps ∧ last_row.close < cs ∧ r > 30
    · simp [hb, hsell]
    · simp [hb, hsell]

/-- Witness for C4: previous close 10 below its average 11, current close
12 above its average 11, oscillator 65 below 70, so the signal is BUY. -/
theorem get_signal_and_price_crossover_spec_witness :
    (get_signal_and_price [⟨10, some 11, some 50⟩, ⟨12, some 11, some 65⟩]).1 =
      some .buy :=
  ((get_signal_and_price_crossover_spec
      [⟨10, some 11, some 50⟩, ⟨12, some 11, some 65⟩]
      ⟨12, some 11, some 65⟩ ⟨10, some 11, some 50⟩ []
      (by decide) 11 11 65 rfl rfl rfl).1).mpr (by norm_num)

/-- C7: with an empty price series or fewer than two bars the indicator
returns no signal and no price, and the cycle stops before anything else:
the state file is not read, no state is written, nothing is appended to
the ledger, no message is sent and no exception escapes. -/
theorem check_trades_short_data_aborts
    (rows : List Row) (news : Except Unit (List ℚ)) (now : String)
    (s : TradeState) (send_ok : Bool) (h : rows.length < 2) :
    get_signal_and_price rows = (none, none)
    ∧ check_trades rows news now s send_ok =
        { state_read := false, writes := [], appends := [], events := [],
          raised := false } := by
  have hsig : get_signal_and_price rows = (none, none) := by
    rcases rows with _ | ⟨a, _ | ⟨b, t⟩⟩
    · rfl
    · rfl
    · simp only [List.length_cons] at h
      omega
  refine ⟨hsig, ?_⟩
  unfold check_trades
  rw [hsig]

/-- Witness for C7 at a one-bar series. -/
theorem check_trades_short_data_aborts_witness :
    get_signal_and_price [⟨10, some 11, some 50⟩] = (none, none)
    ∧ check_trades [⟨10, some 11, some 50⟩] (.ok []) "t" defaultTradeState true =
        { state_read := false, writes := [], appends := [], events := [],
          raised := false } :=
  check_trades_short_data_aborts [⟨10, some 11, some 50⟩] (.ok []) "t"
    defaultTradeState true (by decide)

/-- C1: from a FLAT state, a BUY signal with non-NEGATIVE sentiment
enters LONG, persisting entry_price = current price and entry_time =
current cycle time and sending the entry message; from a well-formed
LONG state, a SELL signal with non-POSITIVE sentiment appends the
completed trade (P&L = exit - entry, percent = P&L / entry * 100) to the
ledger, resets the persisted state to the default FLAT state and sends
the exit message. -/
theorem check_trades_entry_exit_spec (price : ℚ) (sent : Sentiment) (now et : String)
    (s : TradeState) :
    (s.open_position = none → sent ≠ .negative →
      check_trades_core .buy price sent now s true =
        { state_read := true, writes := [⟨some "LONG", price, some now⟩],
          appends := [], events := [.entryEv price sent], raised := false })
    ∧ (s.open_position = some "LONG" → s.entry_time = some et →
        s.entry_price ≠ 0 → sent ≠ .positive →
      check_trades_core .sell price sent now s true =
        { state_read := true, writes := [defaultTradeState],
          appends := [⟨et, now, TICKER, "LONG", s.entry_price, price,
                       price - s.entry_price,
                       (price - s.entry_price) / s.entry_price * 100⟩],
          events := [.exitEv price (price - s.entry_price)
                       ((price - s.entry_price) / s.entry_price * 100) sent],
          raised := false }) := by
  constructor
  · intro h1 h2
    simp [check_trades_core, h1, h2]
  · intro h1 h2 h3 h4
    simp [check_trades_core, h1, h2, h3, h4, log_completed_trade]

/-- Witness for C1: entry at 2500 with NEUTRAL news, then exit at 2550
with NEUTRAL news, logging P&L 50 (2 percent) and resetting the state. -/
theorem check_trades_entry_exit_spec_witness :
    check_trades_core .buy 2500 .neutral "T0" defaultTradeState true =
      { state_read := true, writes := [⟨some "LONG", 2500, some "T0"⟩],
        appends := [], events := [.entryEv 2500 .neutral], raised := false }
    ∧ check_trades_core .sell 2550 .neutral "T1" ⟨some "LONG", 2500, some "T0"⟩ true =
      { state_read := true, writes := [defaultTradeState],
        appends := [⟨"T0", "T1", "RELIANCE.NS", "LONG", 2500, 2550, 50, 2⟩],
        events := [.exitEv 2550 50 2 .neutral], raised := false } :=
  ⟨(check_trades_entry_exit_spec 2500 .neutral "T0" "x" defaultTradeState).1
     rfl (by decide),
   ((check_trades_entry_exit_spec 2550 .neutral "T1" "T0"
       ⟨some "LONG", 2500, some "T0"⟩).2 rfl rfl (by norm_num) (by decide)).trans
     (by norm_num [TICKER])⟩

/-- C3 fails on the code: on the exit branch `check_trades` sends the
Telegram message before `set_trade_state` resets the state, so when the
send raises, the trade is already appended to the CSV but the persisted
state is never reset and stays LONG with its entry fields intact. -/
theorem exit_notification_failure_keeps_long_state :
    check_trades_core .sell 90 .neutral "T1" ⟨some "LONG", 100, some "T0"⟩ false =
      { state_read := true, writes := [],
        appends := [⟨"T0", "T1", "RELIANCE.NS", "LONG", 100, 90, -10, -10⟩],
        events := [], raised := true }
    ∧ run_cycle ⟨some "LONG", 100, some "T0"⟩ ⟨some .sell, .neutral, 90, "T1", false⟩ =
        ⟨some "LONG", 100, some "T0"⟩ := by
  constructor
  · norm_num [check_trades_core, log_completed_trade, TICKER]
  · norm_num [run_cycle, check_trades_core, log_completed_trade, TICKER]

/-- Writes of one cycle body are at most one `set_trade_state` call. -/
theorem check_trades_core_writes_le_one (sig : Signal) (price : ℚ) (sent : Sentiment)
    (now : String) (s : TradeState) (send_ok : Bool) :
    (check_trades_core sig price sent now s send_ok).writes.length ≤ 1 := by
  unfold check_trades_core
  by_cases h1 : sig = .buy ∧ s.open_position = none ∧ sent ≠ .negative
  · simp [h1]
  · by_cases h2 : sig = .sell ∧ s.open_position = some "LONG" ∧ sent ≠ .positive
    · simp only [if_neg h1, if_pos h2]
      cases het : s.entry_time with
      | none => simp
      | some et =>
        cases hlog : log_completed_trade et now "LONG" s.entry_price price with
        | none => simp [hlog]
        | some val =>
          obtain ⟨rec, profit, percent⟩ := val
          cases send_ok <;> simp [hlog]
    · simp [h1, h2]

/-- C9: every admitted cycle performs at most one state write, and for
every (signal, sentiment, state) combination matching neither the entry
guard nor the exit guard the cycle performs no transition at all: no
state write, no ledger append, no message, no exception. -/
theorem check_trades_mutation_frame (rows : List Row) (news : Except Unit (List ℚ))
    (sig : Signal) (price : ℚ) (sent : Sentiment) (now : String)
    (s : TradeState) (send_ok : Bool) :
    (check_trades rows news now s send_ok).writes.length ≤ 1
    ∧ (¬(sig = .buy ∧ s.open_position = none ∧ sent ≠ .negative) →
       ¬(sig = .sell ∧ s.open_position = some "LONG" ∧ sent ≠ .positive) →
       check_trades_core sig price sent now s send_ok =
         { state_read := true, writes := [], appends := [], events := [],
           raised := false }) := by
  constructor
  · unfold check_trades
    cases hsp : get_signal_and_price rows with
    | mk sg pr =>
      cases sg with
      | none => simp
      | some sg' =>
        exact check_trades_core_writes_le_one sg' (pr.getD 0) (get_news_sentiment news) now s send_ok
  · intro h1 h2
    simp [check_trades_core, h1, h2]

/-- Witness for C9 at the spec's named case: FLAT state, BUY signal,
NEGATIVE sentiment gives no transition. -/
theorem check_trades_mutation_frame_witness :
    check_trades_core .buy 100 .negative "t" defaultTradeState true =
      { state_read := true, writes := [], appends := [], events := [],
        raised := false } :=
  (check_trades_mutation_frame [] (.ok []) .buy 100 .negative "t"
    defaultTradeState true).2 (by decide) (by decide)

/-- One admitted cycle preserves the PositionState invariant provided the
cycle's price is nonzero. -/
theorem run_cycle_preserves_inv (s : TradeState) (i : CycleInput)
    (hs : stateInv s) (hp : i.price ≠ 0) : stateInv (run_cycle s i) := by
  unfold run_cycle
  cases hsig : i.signal with
  | none => exact hs
  | some sig =>
    by_cases h1 : sig = .buy ∧ s.open_position = none ∧ i.sentiment ≠ .negative
    · simp [check_trades_core, h1, stateInv, hp]
    · by_cases h2 : sig = .sell ∧ s.open_position = some "LONG" ∧ i.sentiment ≠ .positive
      · simp only [check_trades_core, if_neg h1, if_pos h2]
        cases het : s.entry_time with
        | none => simpa using hs
        | some et =>
          cases hlog : log_completed_trade et i.time "LONG" s.entry_price i.price with
          | none => simpa [hlog] using hs
          | some val =>
            obtain ⟨rec, profit, percent⟩ := val
            cases hso : i.send_ok
            · simpa [hlog] using hs
            · simp [hlog, stateInv, defaultTradeState]
      · simpa [check_trades_core, h1, h2] using hs

/-- C2 as stated fails on the code: a cycle whose fetched price is 0 can
enter LONG with entry_price = 0, because the entry branch stores the
current price without any positivity guard. -/
theorem run_cycles_zero_price_counterexample :
    ¬ stateInv (run_cycles [⟨some .buy, .neutral, 0, "t", true⟩] defaultTradeState) := by
  decide

/-- C2 amended: starting from the default FLAT state, for every sequence
of cycle inputs whose prices are all nonzero, the persisted state always
satisfies the invariant: entry_price is nonzero and entry_time present
exactly when open_position = LONG (so FLAT always carries the default
zero entry_price and no entry_time). -/
theorem run_cycles_inv (inputs : List CycleInput)
    (h : ∀ i ∈ inputs, i.price ≠ 0) :
    stateInv (run_cycles inputs defaultTradeState) := by
  have key : ∀ (l : List CycleInput) (s : TradeState), stateInv s →
      (∀ i ∈ l, i.price ≠ 0) → stateInv (run_cycles l s) := by
    intro l
    induction l with
    | nil => intro s hs _; exact hs
    | cons a t ih =>
      intro s hs hl
      exact ih (run_cycle s a)
        (run_cycle_preserves_inv s a hs (hl a (List.mem_cons_self a t)))
        (fun i hi => hl i (List.mem_cons_of_mem a hi))
  exact key inputs defaultTradeState (by decide) h

/-- Witness for C2 (amended) on a full entry-exit round trip. -/
theorem run_cycles_inv_witness :
    (∀ i ∈ [(⟨some .buy, .neutral, 100, "T0", true⟩ : CycleInput),
            ⟨some .sell, .neutral, 90, "T1", true⟩], i.price ≠ 0)
    ∧ stateInv (run_cycles
        [⟨some .buy, .neutral, 100, "T0", true⟩,
         ⟨some .sell, .neutral, 90, "T1", true⟩] defaultTradeState) :=
  ⟨by decide,
   run_cycles_inv
     [⟨some .buy, .neutral, 100, "T0", true⟩,
      ⟨some .sell, .neutral, 90, "T1", true⟩] (by decide)⟩

/-- Rows with P/L > 0 and rows with P/L ≤ 0 partition the ledger. -/
theorem filter_pos_add_filter_nonpos (l : List ℚ) :
    (l.filter fun x => decide (x > 0)).length
      + (l.filter fun x => decide (x ≤ 0)).length = l.length := by
  induction l with
  | nil => rfl
  | cons a t ih =>
    simp only [gt_iff_lt] at ih
    by_cases ha : a > 0
    · simp [List.filter_cons, ha, not_le.mpr ha]
      omega
    · simp [List.filter_cons, ha, not_lt.mp ha]
      omega

/-- C6 as stated fails on the code: the computed win rate is a
percentage, `wins/total * 100`, not `wins/total` (at one winning trade
the code reports 100, the claim says 1), and a missing ledger file is
answered with the no-file reply, not with a zero-valued summary. -/
theorem report_claim_counterexample :
    report (some [50]) = .summary ⟨1, 1, 0, 100, 50⟩
    ∧ (100 : ℚ) ≠ 1 / 1
    ∧ report none = .no_file
    ∧ ReportReply.no_file ≠ .summary ⟨0, 0, 0, 0, 0⟩ := by
  refine ⟨by norm_num [report], by norm_num, rfl, by decide⟩

/-- C6 amended: on a nonempty ledger the summary counts the trades, the
wins (P/L > 0) and the losses (P/L ≤ 0) — wins and losses partitioning
the total — with win rate `wins/total * 100` and total P/L the sum over
all records; an empty ledger gets the no-trades reply and a missing file
the no-file reply, in both cases without raising and without a summary. -/
theorem report_summary_spec (pls : List ℚ) (h : pls ≠ []) :
    report (some pls) = .summary
      ⟨pls.length,
       (pls.filter fun x => decide (x > 0)).length,
       (pls.filter fun x => decide (x ≤ 0)).length,
       ((pls.filter fun x => decide (x > 0)).length : ℚ) / pls.length * 100,
       pls.sum⟩
    ∧ (pls.filter fun x => decide (x > 0)).length
        + (pls.filter fun x => decide (x ≤ 0)).length = pls.length
    ∧ report (some []) = .no_trades
    ∧ report none = .no_file := by
  refine ⟨?_, filter_pos_add_filter_nonpos pls, rfl, rfl⟩
  rcases pls with _ | ⟨a, t⟩
  · exact absurd rfl h
  · simp [report]

/-- Witness for C6 (amended): one win of 50 and one loss of 30 give a
summary of 2 trades, 1 win, 1 loss, win rate 50 and total P/L 20. -/
theorem report_summary_spec_witness :
    report (some [(50:ℚ), -30]) = .summary ⟨2, 1, 1, 50, 20⟩ := by
  have h := (report_summary_spec [(50:ℚ), -30] (by decide)).1
  rw [h]
  norm_num
